import Mathlib

/-!
Shallow embedding of the response-decoding layer of the wolframalpha client
(src/wolframalpha/__init__.py).  The parsed XML document handed over by
xmltodict is modelled as a generic tree value; each wrapper class of the
source becomes a structure, and each fallible construction or property
becomes a function into `Except PyErr`.
-/

namespace WolframAlphaV1

/-- The Python exception kinds this library can raise. -/
inductive PyErr where
  | keyError : String → PyErr
  | typeError : String → PyErr
  | attributeError : String → PyErr
  | nameError : String → PyErr
  | valueError : String → PyErr
  | exception : String → PyErr
  | assertionError : PyErr
  deriving DecidableEq

/-- A value of the generic tree produced by `xmltodict.parse` with
`dict_constructor=dict` (line 44): a string, a dict keyed by tag and
attribute names, or a list of repeated sibling elements. -/
inductive XmlVal where
  | str : String → XmlVal
  | node : List (String × XmlVal) → XmlVal
  | list : List XmlVal → XmlVal

/-- Python subscript `v[k]` for a string key: dict lookup with `KeyError` on a
missing key; subscripting a string or a list with a string key is a
`TypeError`. -/
def dictGet (v : XmlVal) (k : String) : Except PyErr XmlVal :=
  match v with
  | .node kvs =>
    match kvs.find? (fun kv => kv.1 == k) with
    | some kv => .ok kv.2
    | none => .error (.keyError k)
  | .str _ => .error (.typeError "string indices must be integers")
  | .list _ => .error (.typeError "list indices must be integers")

/-- The `k in v` membership test combined with lookup, as used on line 107:
`none` when the key is absent (or the value is not a dict, which cannot occur
at that line), the stored value otherwise. -/
def dictLookup (v : XmlVal) (k : String) : Option XmlVal :=
  match v with
  | .node kvs => (kvs.find? (fun kv => kv.1 == k)).map (fun kv => kv.2)
  | _ => none

/-- Python `==` between a parsed value and a string literal: true exactly for
an equal string; a dict or a list never compares equal to a string. -/
def XmlVal.eqStr : XmlVal → String → Bool
  | .str s, t => s == t
  | _, _ => false

/-- Python iteration over a parsed value, as forced by `list(map(f, v))`
(lines 48, 53, 58): a list yields its elements, a dict yields its keys (as
strings), and a string yields its characters as one-character strings. -/
def pyIterL : XmlVal → List XmlVal
  | .list l => l
  | .node kvs => kvs.map (fun kv => XmlVal.str kv.1)
  | .str s => s.toList.map (fun c => XmlVal.str c.toString)

/-- Lines 104-105 and 171-172: `if type(x) != list: x = [x]` — the
single-versus-list normalisation applied to subpod and img children. -/
def toList1 : XmlVal → List XmlVal
  | .list l => l
  | v => [v]

/-- Nonempty run of decimal digits. -/
def isDigits (l : List Char) : Bool := !l.isEmpty && l.all (fun c => c.isDigit)

/-- Acceptor for the decimal numerals Python `float()` receives from the API
in the `@position` attribute: an optional sign, then digits with an optional
fractional part.  The numeric value itself is never consumed by this
library, so acceptance is all the embedding needs to track. -/
def isFloatLit (s : String) : Bool :=
  let l :=
    match s.toList with
    | c :: r => if c = '+' ∨ c = '-' then r else c :: r
    | [] => []
  match l.span (fun c => c.isDigit) with
  | (ds, []) => !ds.isEmpty
  | (ds, c :: rest) =>
    c = '.' && (!ds.isEmpty || !rest.isEmpty) && rest.all (fun ch => ch.isDigit)

/-- Line 99: `float(node['@position'])`.  A non-numeral string raises
`ValueError`; a dict or list argument raises `TypeError`.  The accepted
numeral is kept verbatim since its numeric value is never read. -/
def pyFloat : XmlVal → Except PyErr String
  | .str s => if isFloatLit s then .ok s else .error (.valueError s)
  | _ => .error (.typeError "float argument must be a string or a number")

/-- Value of a run of decimal digits. -/
def digitsToNat (l : List Char) : Nat :=
  l.foldl (fun acc c => acc * 10 + (c.toNat - 48)) 0

/-- Line 100: `int(node['@numsubpods'])` on the decimal numerals the API
emits: an optional sign then digits; anything else raises `ValueError`, a
dict or list argument raises `TypeError`. -/
def pyInt : XmlVal → Except PyErr Int
  | .str s =>
    match s.toList with
    | '-' :: r => if isDigits r then .ok (-(digitsToNat r : Int)) else .error (.valueError s)
    | '+' :: r => if isDigits r then .ok ((digitsToNat r : Int)) else .error (.valueError s)
    | l => if isDigits l then .ok ((digitsToNat l : Int)) else .error (.valueError s)
  | _ => .error (.typeError "int argument must be a string or a number")

/-- Image (lines 175-183): five attribute keys read eagerly, stored raw. -/
structure Image where
  node : XmlVal
  title : XmlVal
  alt : XmlVal
  height : XmlVal
  width : XmlVal
  src : XmlVal

/-- Embeds `Image.__init__` (lines 177-183). -/
def Image.fromNode (n : XmlVal) : Except PyErr Image := do
  let title ← dictGet n "@title"
  let alt ← dictGet n "@alt"
  let height ← dictGet n "@height"
  let width ← dictGet n "@width"
  let src ← dictGet n "@src"
  pure { node := n, title := title, alt := alt, height := height, width := width, src := src }

/-- Subpod (lines 162-173). -/
structure Subpod where
  node : XmlVal
  title : XmlVal
  text : XmlVal
  img : List Image

/-- Embeds `Subpod.__init__` (lines 164-173): reads `@title`, `plaintext` and `img`,
wraps a single img value into a list, then maps `Image` over it. -/
def Subpod.fromNode (n : XmlVal) : Except PyErr Subpod := do
  let title ← dictGet n "@title"
  let text ← dictGet n "plaintext"
  let imgRaw ← dictGet n "img"
  let img ← (toList1 imgRaw).mapM Image.fromNode
  pure { node := n, title := title, text := text, img := img }

/-- Python `str()` restricted to the values this library formats into error
messages; the API supplies string `code` and `msg` fields, the only case the
message template is exercised with. -/
def pyStr : XmlVal → String
  | .str s => s
  | .node _ => "dict"
  | .list _ => "list"

/-- Lines 71 and 116: the message template `Error <code>: <msg>`. -/
def errorMessage (code msg : XmlVal) : String :=
  "Error " ++ pyStr code ++ ": " ++ pyStr msg

/-- Embeds `Result._handle_error` (lines 63-72) and `Pod._handle_error`
(lines 109-117), which share one body: return when the error flag is the exact
string `false`, otherwise raise `Exception` with the `code` and `msg` drawn
from the node's `error` subtree. -/
def handleError (node errState : XmlVal) : Except PyErr Unit :=
  if XmlVal.eqStr errState "false" then Except.ok ()
  else do
    let errNode ← dictGet node "error"
    let code ← dictGet errNode "code"
    let msg ← dictGet errNode "msg"
    Except.error (.exception (errorMessage code msg))

/-- Line 107: `primary = '@primary' in node and node['@primary'] != 'false'`.
An absent key gives `false`; any present value other than the exact string
`false` gives `true`. -/
def coercePrimary (n : XmlVal) : Bool :=
  match dictLookup n "@primary" with
  | none => false
  | some v => !(XmlVal.eqStr v "false")

/-- Pod (lines 90-128): the attributes assigned by `__init__`. -/
structure Pod where
  node : XmlVal
  error : XmlVal
  title : XmlVal
  scanner : XmlVal
  id : XmlVal
  position : String
  number_of_subpods : Int
  subpods : List Subpod
  primary : Bool

/-- Embeds `Pod.__init__` (lines 92-107), including the `_handle_error` call. -/
def Pod.fromNode (n : XmlVal) : Except PyErr Pod := do
  let err ← dictGet n "@error"
  handleError n err
  let title ← dictGet n "@title"
  let scanner ← dictGet n "@scanner"
  let idv ← dictGet n "@id"
  let posRaw ← dictGet n "@position"
  let position ← pyFloat posRaw
  let nsubRaw ← dictGet n "@numsubpods"
  let nsub ← pyInt nsubRaw
  let subpodRaw ← dictGet n "subpod"
  let subpods ← (toList1 subpodRaw).mapM Subpod.fromNode
  pure { node := n, error := err, title := title, scanner := scanner, id := idv,
         position := position, number_of_subpods := nsub, subpods := subpods,
         primary := coercePrimary n }

/-- Embeds `Pod.text` (lines 125-128): the list of each subpod's plaintext value,
in subpod order. -/
def Pod.text (p : Pod) : List XmlVal :=
  p.subpods.map (fun s => s.text)

/-- The typed values held in a Pod instance dictionary (needed because the
attributes assigned by `__init__` have several types). -/
inductive PodAttr where
  | xml : XmlVal → PodAttr
  | str : String → PodAttr
  | int : Int → PodAttr
  | bool : Bool → PodAttr
  | subpodList : List Subpod → PodAttr

/-- The attribute dictionary a Pod instance carries after `__init__`: exactly
the assignments on lines 93-107, in assignment order. -/
def Pod.instanceDict (p : Pod) : List (String × PodAttr) :=
  [("node", .xml p.node), ("error", .xml p.error), ("title", .xml p.title),
   ("scanner", .xml p.scanner), ("id", .xml p.id), ("position", .str p.position),
   ("number_of_subpods", .int p.number_of_subpods),
   ("subpods", .subpodList p.subpods), ("primary", .bool p.primary)]

/-- Dynamic attribute read `pod.<name>` for a name that is not one of the
class-level members (`text` and the dunder methods): consult the instance
dictionary, else raise `AttributeError`. -/
def Pod.getattr (p : Pod) (name : String) : Except PyErr PodAttr :=
  match (Pod.instanceDict p).find? (fun kv => kv.1 == name) with
  | some kv => .ok kv.2
  | none => .error (.attributeError ("Pod object has no attribute " ++ name))

/-- Assumption (lines 131-149): `__init__` stores the raw node only — the
description assignment on line 134 is commented out and never runs. -/
structure Assumption where
  assumption : XmlVal

/-- Embeds `Assumption.__init__` (lines 132-134). -/
def Assumption.fromNode (n : XmlVal) : Assumption := { assumption := n }

/-- The attribute dictionary of an Assumption instance: only the single
assignment on line 133. -/
def Assumption.instanceDict (a : Assumption) : List (String × XmlVal) :=
  [("assumption", a.assumption)]

/-- Dynamic attribute read `assumption.<name>` for a name that is not one of
the class-level members (`text` and the dunder methods). -/
def Assumption.getattr (a : Assumption) (name : String) : Except PyErr XmlVal :=
  match (Assumption.instanceDict a).find? (fun kv => kv.1 == name) with
  | some kv => .ok kv.2
  | none => .error (.attributeError ("Assumption object has no attribute " ++ name))

/-- Embeds `str.replace` on character lists.  The fuel is bounded by the text
length: a nonempty pattern consumes at least one character per match, so the
fuel never runs out for the nonempty literal patterns of lines 144-146. -/
def replaceAux : Nat → List Char → List Char → List Char → List Char
  | 0, s, _, _ => s
  | _ + 1, [], _, _ => []
  | fuel + 1, c :: rest, pat, repl =>
    if pat.isPrefixOf (c :: rest) && !pat.isEmpty then
      repl ++ replaceAux fuel ((c :: rest).drop pat.length) pat repl
    else
      c :: replaceAux fuel rest pat repl

/-- Embeds `str.replace` as used on lines 144-146. -/
def strReplace (s pat repl : String) : String :=
  (replaceAux s.toList.length s.toList pat.toList repl.toList).asString

/-- Embeds `str.index` for a string pattern: position of the first occurrence,
`none` when the pattern does not occur (Python raises `ValueError`). -/
def findSubIdx : List Char → List Char → Option Nat
  | [], pat => if pat.isEmpty then some 0 else none
  | c :: rest, pat =>
    if pat.isPrefixOf (c :: rest) then some 0
    else (findSubIdx rest pat).map (fun i => i + 1)

/-- Embeds `Assumption.text` (lines 142-149).  The first step reads
`self.template`; no attribute of that name (nor `description`, nor `word`)
is ever assigned, so the read raises `AttributeError` and the substitution
and truncation below it are unreachable.  They are still embedded faithfully:
substitute the description, best-effort substitute the word with any failure
swallowed by the bare `except` (lines 145-148), then slice up to and
including the first period of the first period-space occurrence
(`text[:text.index('. ') + 1]`, line 149). -/
def Assumption.text (a : Assumption) : Except PyErr String := do
  let templateVal ← Assumption.getattr a "template"
  let t ←
    match templateVal with
    | .str s => Except.ok s
    | (_ : XmlVal) => Except.error (.attributeError "object has no attribute replace")
  let descVal ← Assumption.getattr a "description"
  let d ←
    match descVal with
    | .str s => Except.ok s
    | (_ : XmlVal) => Except.error (.typeError "replace argument must be a string")
  let text := strReplace t "${desc1}" d
  let text :=
    match Assumption.getattr a "word" with
    | .ok (.str w) => strReplace text "${word}" w
    | _ => text
  match findSubIdx text.toList ". ".toList with
  | some i => pure ((text.toList.take (i + 1)).asString)
  | none => Except.error (.valueError "substring not found")

/-- Warning (lines 152-160): `__init__` stores the raw node. -/
structure Warning where
  node : XmlVal

/-- Embeds `Warning.__init__` (lines 153-154). -/
def Warning.fromNode (n : XmlVal) : Warning := { node := n }

/-- The names in scope inside the bodies of the Warning iteration and length
methods (lines 156-160): the local scope binds only `self`, and the module
globals bind no name `node`. -/
def warningMethodScope : List String := ["self"]

/-- Embeds `Warning.__iter__` (lines 156-157): the body is `iter(node)`, reading
the free name `node`.  Were that name bound it would denote the stored tree
and the call would iterate it; the lookup fails, raising `NameError`. -/
def Warning.iterMethod (w : Warning) : Except PyErr (List XmlVal) :=
  if warningMethodScope.contains "node" then .ok (pyIterL w.node)
  else .error (.nameError "name node is not defined")

/-- Embeds `Warning.__len__` (lines 159-160): the body is `len(node)`, with the
same unbound free name. -/
def Warning.lenMethod (w : Warning) : Except PyErr Nat :=
  if warningMethodScope.contains "node" then
    match w.node with
    | .node kvs => .ok kvs.length
    | .list l => .ok l.length
    | .str s => .ok s.length
  else .error (.nameError "name node is not defined")

/-- One element of `Result.info`: the constructor appends whole category
lists (lines 49, 54, 59), so an element of `info` is a list of pods, a list
of assumptions or a list of warnings — not an individual node. -/
inductive InfoGroup where
  | pods : List Pod → InfoGroup
  | assumptions : List Assumption → InfoGroup
  | warnings : List Warning → InfoGroup

/-- Result (lines 39-88): the attributes assigned by `__init__`. -/
structure Result where
  tree : XmlVal
  pods : Option (List Pod)
  assumptions : Option (List Assumption)
  warnings : Option (List Warning)
  info : List InfoGroup

/-- Line 48: `list(map(Pod, self.tree['pod']))`. -/
def computePods (tree : XmlVal) : Except PyErr (List Pod) := do
  let raw ← dictGet tree "pod"
  (pyIterL raw).mapM Pod.fromNode

/-- Line 53: `list(map(Assumption, self.tree['assumptions']))`; the
Assumption constructor itself never fails. -/
def computeAssumptions (tree : XmlVal) : Except PyErr (List Assumption) := do
  let raw ← dictGet tree "assumptions"
  pure ((pyIterL raw).map Assumption.fromNode)

/-- Line 58: `list(map(Warning, self.tree['warnings']))`; the Warning
constructor itself never fails. -/
def computeWarnings (tree : XmlVal) : Except PyErr (List Warning) := do
  let raw ← dictGet tree "warnings"
  pure ((pyIterL raw).map Warning.fromNode)

/-- The `try ... except KeyError` blocks of lines 47-61: a `KeyError` raised
anywhere in the block leaves the category as `None`; any other exception
propagates out of `__init__`. -/
def catchKeyError {α : Type} : Except PyErr α → Except PyErr (Option α)
  | .ok a => .ok (some a)
  | .error (.keyError _) => .ok none
  | .error e => .error e

/-- The `info` contribution of one category: its whole list is appended as a
single element when the category is present, nothing otherwise. -/
def optGroup {α : Type} (f : α → InfoGroup) : Option α → List InfoGroup
  | some a => [f a]
  | none => []

/-- Embeds `Result.__init__` (lines 43-61) with `_handle_error` (lines 63-72).  The
incoming tree is the `queryresult` subtree of the parsed document. -/
def Result.fromTree (tree : XmlVal) : Except PyErr Result := do
  let errState ← dictGet tree "@error"
  handleError tree errState
  let pods ← catchKeyError (computePods tree)
  let assumptions ← catchKeyError (computeAssumptions tree)
  let warnings ← catchKeyError (computeWarnings tree)
  pure { tree := tree, pods := pods, assumptions := assumptions, warnings := warnings,
         info := optGroup InfoGroup.pods pods
           ++ optGroup InfoGroup.assumptions assumptions
           ++ optGroup InfoGroup.warnings warnings }

/-- Embeds `Result.results` (lines 80-83): a comprehension filtering `self.pods`;
when `pods` is `None` the iteration raises `TypeError`. -/
def Result.results (r : Result) : Except PyErr (List Pod) :=
  match r.pods with
  | none => .error (.typeError "NoneType object is not iterable")
  | some ps => .ok (ps.filter (fun p => p.primary || XmlVal.eqStr p.title "Result"))

/-- Embeds `Result.details` (lines 85-88): a dict comprehension evaluating
`pod.title` and `pod.details` for each pod.  The attribute read
`pod.details` decides success; the dict built on success is represented as
the association list of its entries in insertion order (Python's
last-write-wins key collision handling can never run: a nonempty iteration
always fails at the first `pod.details` read). -/
def Result.details (r : Result) : Except PyErr (List (XmlVal × PodAttr)) :=
  match r.pods with
  | none => .error (.typeError "NoneType object is not iterable")
  | some ps => do
    let entries ← ps.mapM (fun p => do
      let v ← Pod.getattr p "details"
      pure (p.title, v))
    pure entries

/-- Embeds `Result(resp)` as called on line 37 together with lines 43-44: parse the
body and take the `queryresult` subtree.  The external XML parse is
represented by the already-parsed document tree. -/
def parseResponse (doc : XmlVal) : Except PyErr Result := do
  let qr ← dictGet doc "queryresult"
  Result.fromTree qr

/-- Embeds `Client.query`, response half (lines 34-37): the content-type and
charset asserts run on the received headers before the body is parsed.
`charset` is `none` when the header carries no charset parameter. -/
def Client.query (contentType : String) (charset : Option String) (doc : XmlVal) :
    Except PyErr Result :=
  if contentType ≠ "text/xml" then .error .assertionError
  else if charset ≠ some "utf-8" then .error .assertionError
  else parseResponse doc

/-! Concrete sample documents, shaped like the trees xmltodict produces for
API responses, together with the wrapper values their construction yields. -/

def sampleImgNode : XmlVal :=
  .node [("@title", .str "img"), ("@alt", .str "alt"),
    ("@height", .str "20"), ("@width", .str "50"), ("@src", .str "http://e/img.gif")]

def sampleImg : Image :=
  { node := sampleImgNode, title := .str "img", alt := .str "alt",
    height := .str "20", width := .str "50", src := .str "http://e/img.gif" }

def sampleSubpodNode (txt : String) : XmlVal :=
  .node [("@title", .str ""), ("plaintext", .str txt), ("img", sampleImgNode)]

def sampleSubpod (txt : String) : Subpod :=
  { node := sampleSubpodNode txt, title := .str "", text := .str txt, img := [sampleImg] }

def samplePodNode (title txt : String) (primaryVal : Option String) : XmlVal :=
  .node ([("@error", .str "false"), ("@title", .str title), ("@scanner", .str "Identity"),
    ("@id", .str title), ("@position", .str "100"), ("@numsubpods", .str "1"),
    ("subpod", sampleSubpodNode txt)] ++
    (match primaryVal with
     | some v => [("@primary", XmlVal.str v)]
     | none => []))

def samplePod (title txt : String) (primaryVal : Option String) : Pod :=
  { node := samplePodNode title txt primaryVal, error := .str "false", title := .str title,
    scanner := .str "Identity", id := .str title, position := "100", number_of_subpods := 1,
    subpods := [sampleSubpod txt],
    primary :=
      match primaryVal with
      | some v => !(v == "false")
      | none => false }

/-- A document (or pod) node reporting an API error, as in the spec's error
scenario: error flag set, code 1, message Invalid input. -/
def errorNode : XmlVal :=
  .node [("@error", .str "true"),
    ("error", .node [("code", .str "1"), ("msg", .str "Invalid input")])]

/-- A successful document that simply has no pod, assumption or warning
children. -/
def treeNoPods : XmlVal := .node [("@error", .str "false")]

/-- The Result that construction from `treeNoPods` yields. -/
def resultNoPods : Result :=
  { tree := treeNoPods, pods := none, assumptions := none, warnings := none, info := [] }

/-- A successful document with two pods, one assumptions child and one
warnings child. -/
def sampleTree4 : XmlVal :=
  .node [("@error", .str "false"),
    ("pod", .list [samplePodNode "Input" "A" (some "true"), samplePodNode "Result" "B" none]),
    ("assumptions", .node [("assumption", .str "x")]),
    ("warnings", .node [("spellcheck", .str "w")])]

/-- The Result that construction from `sampleTree4` yields: note that
mapping `Assumption` and `Warning` over a dict iterates its keys. -/
def sampleResult4 : Result :=
  { tree := sampleTree4,
    pods := some [samplePod "Input" "A" (some "true"), samplePod "Result" "B" none],
    assumptions := some [{ assumption := .str "assumption" }],
    warnings := some [{ node := .str "spellcheck" }],
    info := [.pods [samplePod "Input" "A" (some "true"), samplePod "Result" "B" none],
      .assumptions [{ assumption := .str "assumption" }],
      .warnings [{ node := .str "spellcheck" }]] }

/-- A successful document with a single pod titled X whose subpod plaintext
is A. -/
def sampleTree5 : XmlVal :=
  .node [("@error", .str "false"), ("pod", .list [samplePodNode "X" "A" none])]

/-- A pod node whose subpod key holds an empty list: construction succeeds
with zero subpods. -/
def podNodeEmptySubpods : XmlVal :=
  .node [("@error", .str "false"), ("@title", .str "T"), ("@scanner", .str "S"),
    ("@id", .str "I"), ("@position", .str "1"), ("@numsubpods", .str "0"),
    ("subpod", .list [])]

/-- A pod node with every attribute except the subpod key. -/
def podNodeNoSubpod : XmlVal :=
  .node [("@error", .str "false"), ("@title", .str "T"), ("@scanner", .str "S"),
    ("@id", .str "I"), ("@position", .str "1"), ("@numsubpods", .str "0")]

/-- An assumption node carrying the spec's template, description and word
as tree entries. -/
def assumptionNode6 : XmlVal :=
  .node [("template",
      .str "Assuming ${desc1} is referring to ${word}. Use as a person instead. More text."),
    ("description", .str "Washington"), ("word", .str "a state")]

/-- A document with three pods: a primary one titled Input, a non-primary
one titled Result, and a non-primary one titled Other. -/
def treeC1 : XmlVal :=
  .node [("@error", .str "false"),
    ("pod", .list [samplePodNode "Input" "A" (some "true"), samplePodNode "Result" "B" none,
      samplePodNode "Other" "C" none])]

/-- The Result constructed from `treeC1`. -/
def resultC1 : Result :=
  { tree := treeC1,
    pods := some [samplePod "Input" "A" (some "true"), samplePod "Result" "B" none,
      samplePod "Other" "C" none],
    assumptions := none, warnings := none,
    info := [.pods [samplePod "Input" "A" (some "true"), samplePod "Result" "B" none,
      samplePod "Other" "C" none]] }

/-- A whole parsed response document wrapping `sampleTree4`. -/
def sampleDoc : XmlVal := .node [("queryresult", sampleTree4)]

/-! Inversion lemmas for the Except-valued constructors. -/

theorem exceptBindOk {α β : Type} (a : α) (f : α → Except PyErr β) :
    (Except.ok a >>= f) = f a := rfl

theorem exceptBindErr {α β : Type} (e : PyErr) (f : α → Except PyErr β) :
    ((Except.error e : Except PyErr α) >>= f) = Except.error e := rfl

theorem bindOkInv {α β : Type} {x : Except PyErr α} {f : α → Except PyErr β} {b : β}
    (h : x >>= f = .ok b) : ∃ a, x = .ok a ∧ f a = .ok b := by
  cases x with
  | ok a => exact ⟨a, rfl, h⟩
  | error e => rw [exceptBindErr] at h; cases h

theorem eqStr_true_iff (v : XmlVal) (s : String) :
    XmlVal.eqStr v s = true ↔ v = XmlVal.str s := by
  cases v <;> simp [XmlVal.eqStr]

theorem handleError_raise (node e en : XmlVal) (c m : String)
    (h : XmlVal.eqStr e "false" = false)
    (hen : dictGet node "error" = .ok en)
    (hc : dictGet en "code" = .ok (.str c)) (hm : dictGet en "msg" = .ok (.str m)) :
    handleError node e = .error (.exception ("Error " ++ c ++ ": " ++ m)) := by
  simp only [handleError, h, Bool.false_eq_true, if_false, hen, exceptBindOk, hc, hm,
    errorMessage, pyStr]

theorem handleError_error (node e : XmlVal) (h : XmlVal.eqStr e "false" = false) :
    ∃ er, handleError node e = .error er := by
  simp only [handleError, h, Bool.false_eq_true, if_false]
  cases hen : dictGet node "error" with
  | error er => exact ⟨er, by rw [exceptBindErr]⟩
  | ok en =>
    cases hc : dictGet en "code" with
    | error er => exact ⟨er, by rw [exceptBindOk, hc, exceptBindErr]⟩
    | ok c =>
      cases hm : dictGet en "msg" with
      | error er => exact ⟨er, by rw [exceptBindOk, hc, exceptBindOk, hm, exceptBindErr]⟩
      | ok m =>
        exact ⟨.exception (errorMessage c m),
          by rw [exceptBindOk, hc, exceptBindOk, hm, exceptBindOk]⟩

theorem handleError_ok_inv {node e : XmlVal} {u : Unit} (h : handleError node e = .ok u) :
    XmlVal.eqStr e "false" = true := by
  by_contra hc
  rw [Bool.not_eq_true] at hc
  obtain ⟨er, her⟩ := handleError_error node e hc
  rw [her] at h
  cases h

theorem mapM_ok_length {α β : Type} (f : α → Except PyErr β) :
    ∀ (l : List α) (l2 : List β), l.mapM f = .ok l2 → l2.length = l.length := by
  intro l
  induction l with
  | nil =>
    intro l2 h
    simp only [List.mapM_nil] at h
    cases h
    rfl
  | cons a as ih =>
    intro l2 h
    rw [List.mapM_cons] at h
    obtain ⟨b, hb, h⟩ := bindOkInv h
    obtain ⟨bs, hbs, h⟩ := bindOkInv h
    cases h
    simp [ih bs hbs]

theorem mapM_error_middle {α β : Type} (f : α → Except PyErr β) (bad : α) (suf : List α)
    (e : PyErr) (hbad : f bad = .error e) :
    ∀ pre : List α, (∀ x ∈ pre, ∃ y, f x = .ok y) →
      (pre ++ bad :: suf).mapM f = .error e := by
  intro pre
  induction pre with
  | nil =>
    intro _
    rw [List.nil_append, List.mapM_cons, hbad, exceptBindErr]
  | cons a as ih =>
    intro hpre
    obtain ⟨y, hy⟩ := hpre a (by simp)
    rw [List.cons_append, List.mapM_cons, hy, exceptBindOk,
      ih (fun x hx => hpre x (by simp [hx])), exceptBindErr]

theorem fromTree_ok_inv {t : XmlVal} {r : Result} (h : Result.fromTree t = .ok r) :
    ∃ e, dictGet t "@error" = .ok e ∧ XmlVal.eqStr e "false" = true ∧
      catchKeyError (computePods t) = .ok r.pods ∧
      catchKeyError (computeAssumptions t) = .ok r.assumptions ∧
      catchKeyError (computeWarnings t) = .ok r.warnings ∧
      r.tree = t ∧
      r.info = optGroup InfoGroup.pods r.pods ++ optGroup InfoGroup.assumptions r.assumptions
        ++ optGroup InfoGroup.warnings r.warnings := by
  unfold Result.fromTree at h
  obtain ⟨e, he, h⟩ := bindOkInv h
  obtain ⟨u, hu, h⟩ := bindOkInv h
  obtain ⟨pods, hp, h⟩ := bindOkInv h
  obtain ⟨asm, ha, h⟩ := bindOkInv h
  obtain ⟨ws, hw, h⟩ := bindOkInv h
  cases h
  exact ⟨e, he, handleError_ok_inv hu, hp, ha, hw, rfl, rfl⟩

theorem fromNode_ok_inv {n : XmlVal} {p : Pod} (h : Pod.fromNode n = .ok p) :
    ∃ e title scanner idv posRaw pos nsubRaw nsub subpodRaw subpods,
      dictGet n "@error" = .ok e ∧ XmlVal.eqStr e "false" = true ∧
      dictGet n "@title" = .ok title ∧ dictGet n "@scanner" = .ok scanner ∧
      dictGet n "@id" = .ok idv ∧
      dictGet n "@position" = .ok posRaw ∧ pyFloat posRaw = .ok pos ∧
      dictGet n "@numsubpods" = .ok nsubRaw ∧ pyInt nsubRaw = .ok nsub ∧
      dictGet n "subpod" = .ok subpodRaw ∧
      (toList1 subpodRaw).mapM Subpod.fromNode = .ok subpods ∧
      p = { node := n, error := e, title := title, scanner := scanner, id := idv,
            position := pos, number_of_subpods := nsub, subpods := subpods,
            primary := coercePrimary n } := by
  unfold Pod.fromNode at h
  obtain ⟨e, he, h⟩ := bindOkInv h
  obtain ⟨u, hu, h⟩ := bindOkInv h
  obtain ⟨title, ht, h⟩ := bindOkInv h
  obtain ⟨scanner, hs, h⟩ := bindOkInv h
  obtain ⟨idv, hi, h⟩ := bindOkInv h
  obtain ⟨posRaw, hpr, h⟩ := bindOkInv h
  obtain ⟨pos, hpos, h⟩ := bindOkInv h
  obtain ⟨nsubRaw, hnr, h⟩ := bindOkInv h
  obtain ⟨nsub, hns, h⟩ := bindOkInv h
  obtain ⟨subpodRaw, hsr, h⟩ := bindOkInv h
  obtain ⟨subpods, hsp, h⟩ := bindOkInv h
  cases h
  exact ⟨e, title, scanner, idv, posRaw, pos, nsubRaw, nsub, subpodRaw, subpods,
    he, handleError_ok_inv hu, ht, hs, hi, hpr, hpos, hnr, hns, hsr, hsp, rfl⟩

theorem subpod_ok_inv {n : XmlVal} {s : Subpod} (h : Subpod.fromNode n = .ok s) :
    ∃ title text imgRaw img,
      dictGet n "@title" = .ok title ∧ dictGet n "plaintext" = .ok text ∧
      dictGet n "img" = .ok imgRaw ∧ (toList1 imgRaw).mapM Image.fromNode = .ok img ∧
      s = { node := n, title := title, text := text, img := img } := by
  unfold Subpod.fromNode at h
  obtain ⟨title, ht, h⟩ := bindOkInv h
  obtain ⟨text, hx, h⟩ := bindOkInv h
  obtain ⟨imgRaw, hir, h⟩ := bindOkInv h
  obtain ⟨img, him, h⟩ := bindOkInv h
  cases h
  exact ⟨title, text, imgRaw, img, ht, hx, hir, him, rfl⟩

/-- An error-bearing pod node makes `Pod.__init__` raise the formatted
Exception (lines 94-95, 109-117). -/
theorem pod_fromNode_raises {n e en : XmlVal} {c m : String}
    (he : dictGet n "@error" = .ok e) (hf : XmlVal.eqStr e "false" = false)
    (hen : dictGet n "error" = .ok en) (hc : dictGet en "code" = .ok (.str c))
    (hm : dictGet en "msg" = .ok (.str m)) :
    Pod.fromNode n = .error (.exception ("Error " ++ c ++ ": " ++ m)) := by
  unfold Pod.fromNode
  rw [he, exceptBindOk, handleError_raise n e en c m hf hen hc hm, exceptBindErr]

/-- An error-bearing document makes `Result.__init__` raise the formatted
Exception (lines 45, 63-72). -/
theorem result_fromTree_raises {t e en : XmlVal} {c m : String}
    (he : dictGet t "@error" = .ok e) (hf : XmlVal.eqStr e "false" = false)
    (hen : dictGet t "error" = .ok en) (hc : dictGet en "code" = .ok (.str c))
    (hm : dictGet en "msg" = .ok (.str m)) :
    Result.fromTree t = .error (.exception ("Error " ++ c ++ ": " ++ m)) := by
  unfold Result.fromTree
  rw [he, exceptBindOk, handleError_raise t e en c m hf hen hc hm, exceptBindErr]

/-- A non-KeyError failure while building the pods list propagates out of
`Result.__init__`: the surrounding `except` clause only catches KeyError. -/
theorem result_fromTree_podAbort {t : XmlVal} {msg : String}
    (he : dictGet t "@error" = .ok (.str "false"))
    (hpods : computePods t = .error (.exception msg)) :
    Result.fromTree t = .error (.exception msg) := by
  unfold Result.fromTree
  rw [he, exceptBindOk]
  rw [show handleError t (XmlVal.str "false") = .ok () from rfl, exceptBindOk, hpods]
  rw [show catchKeyError (Except.error (PyErr.exception msg) : Except PyErr (List Pod)) =
    Except.error (PyErr.exception msg) from rfl, exceptBindErr]

/-- C1 (amended): for every Result whose `pods` attribute holds a list `ps`,
`Result.results` succeeds and is exactly the filter of `ps` — in original
document order, hence a sub-sequence — keeping precisely the pods whose
primary flag is true or whose title is exactly the case-sensitive string
"Result".  (When `pods` is None, i.e. the document had no pod key, the
accessor instead raises a TypeError: see the counterexample.) -/
theorem claim_c1_results (r : Result) (ps : List Pod) (h : r.pods = some ps) :
    Result.results r = .ok (ps.filter (fun p => p.primary || XmlVal.eqStr p.title "Result")) ∧
    (ps.filter (fun p => p.primary || XmlVal.eqStr p.title "Result")).Sublist ps ∧
    ∀ p : Pod, p ∈ ps.filter (fun p => p.primary || XmlVal.eqStr p.title "Result") ↔
      (p ∈ ps ∧ (p.primary = true ∨ p.title = XmlVal.str "Result")) := by
  refine ⟨by simp [Result.results, h], List.filter_sublist ps, ?_⟩
  intro p
  simp [List.mem_filter, Bool.or_eq_true, eqStr_true_iff]

/-- C1 counterexample: a Result successfully constructed from an error-free
document with no pod key has `pods = None`, and accessing `results` then
raises a TypeError instead of yielding any sub-sequence of pods. -/
theorem claim_c1_counterexample :
    Result.fromTree treeNoPods = .ok resultNoPods ∧
    Result.results resultNoPods = .error (.typeError "NoneType object is not iterable") :=
  ⟨rfl, rfl⟩

theorem claim_c1_witness :
    Result.fromTree treeC1 = .ok resultC1 ∧
    Result.results resultC1 =
      .ok [samplePod "Input" "A" (some "true"), samplePod "Result" "B" none] := by
  refine ⟨rfl, ?_⟩
  rw [(claim_c1_results resultC1
    [samplePod "Input" "A" (some "true"), samplePod "Result" "B" none,
      samplePod "Other" "C" none] rfl).1]
  rfl

/-- C2: a document-level or pod-level error flag other than the string
"false" makes construction raise an Exception whose message contains both
the error code and the error message; such a construction never completes
successfully; and a pod-level error — one bad pod anywhere in the pods
list — aborts construction of the whole Result. -/
theorem claim_c2_error_handling :
    (∀ t e en : XmlVal, ∀ c m : String,
      dictGet t "@error" = .ok e → XmlVal.eqStr e "false" = false →
      dictGet t "error" = .ok en → dictGet en "code" = .ok (.str c) →
      dictGet en "msg" = .ok (.str m) →
        Result.fromTree t = .error (.exception ("Error " ++ c ++ ": " ++ m)) ∧
        (∃ s1 s2, "Error " ++ c ++ ": " ++ m = s1 ++ c ++ s2) ∧
        (∃ s3 s4, "Error " ++ c ++ ": " ++ m = s3 ++ m ++ s4)) ∧
    (∀ n e en : XmlVal, ∀ c m : String,
      dictGet n "@error" = .ok e → XmlVal.eqStr e "false" = false →
      dictGet n "error" = .ok en → dictGet en "code" = .ok (.str c) →
      dictGet en "msg" = .ok (.str m) →
        Pod.fromNode n = .error (.exception ("Error " ++ c ++ ": " ++ m))) ∧
    (∀ t e : XmlVal, dictGet t "@error" = .ok e → XmlVal.eqStr e "false" = false →
      ∀ r : Result, Result.fromTree t ≠ .ok r) ∧
    (∀ n e : XmlVal, dictGet n "@error" = .ok e → XmlVal.eqStr e "false" = false →
      ∀ p : Pod, Pod.fromNode n ≠ .ok p) ∧
    (∀ t : XmlVal, ∀ pre : List XmlVal, ∀ bad : XmlVal, ∀ suf : List XmlVal,
      ∀ e en : XmlVal, ∀ c m : String,
      dictGet t "@error" = .ok (.str "false") →
      dictGet t "pod" = .ok (.list (pre ++ bad :: suf)) →
      (∀ x ∈ pre, ∃ q, Pod.fromNode x = .ok q) →
      dictGet bad "@error" = .ok e → XmlVal.eqStr e "false" = false →
      dictGet bad "error" = .ok en → dictGet en "code" = .ok (.str c) →
      dictGet en "msg" = .ok (.str m) →
        Result.fromTree t = .error (.exception ("Error " ++ c ++ ": " ++ m))) := by
  refine ⟨?_, ?_, ?_, ?_, ?_⟩
  · intro t e en c m he hf hen hc hm
    refine ⟨result_fromTree_raises he hf hen hc hm,
      ⟨"Error ", ": " ++ m, ?_⟩, ⟨"Error " ++ c ++ ": ", "", ?_⟩⟩
    · rw [String.append_assoc, String.append_assoc]
    · rw [String.append_empty]
  · intro n e en c m he hf hen hc hm
    exact pod_fromNode_raises he hf hen hc hm
  · intro t e he hf r hok
    obtain ⟨e2, he2, hflag, _⟩ := fromTree_ok_inv hok
    rw [he] at he2
    cases he2
    rw [hflag] at hf
    cases hf
  · intro n e he hf p hok
    obtain ⟨e2, _, _, _, _, _, _, _, _, _, he2, hflag, _⟩ := fromNode_ok_inv hok
    rw [he] at he2
    cases he2
    rw [hflag] at hf
    cases hf
  · intro t pre bad suf e en c m he hpod hpre hbe hbf hben hbc hbm
    apply result_fromTree_podAbort he
    unfold computePods
    rw [hpod, exceptBindOk]
    exact mapM_error_middle Pod.fromNode bad suf _
      (pod_fromNode_raises hbe hbf hben hbc hbm) pre hpre

theorem claim_c2_witness :
    Result.fromTree errorNode = .error (.exception "Error 1: Invalid input") ∧
    Pod.fromNode errorNode = .error (.exception "Error 1: Invalid input") := by
  constructor
  · exact (claim_c2_error_handling.1 errorNode (.str "true")
      (.node [("code", .str "1"), ("msg", .str "Invalid input")]) "1" "Invalid input"
      rfl rfl rfl rfl rfl).1
  · exact claim_c2_error_handling.2.1 errorNode (.str "true")
      (.node [("code", .str "1"), ("msg", .str "Invalid input")]) "1" "Invalid input"
      rfl rfl rfl rfl rfl

/-- C3 (amended): on successful construction, `Pod.subpods` and
`Subpod.img` are always lists built from the raw child value with a single
collapsed child wrapped into a one-element list and an existing list kept
as-is; but the child key must be present — an absent `subpod`/`img` key
fails construction with a KeyError rather than yielding an empty sequence
(see the counterexample) — and `Result.pods` / `Result.assumptions` /
`Result.warnings` are set to None, not an empty sequence, when their key is
absent. -/
theorem claim_c3_plural_children :
    (∀ n : XmlVal, ∀ p : Pod, Pod.fromNode n = .ok p →
      ∃ v, dictGet n "subpod" = .ok v ∧
        (toList1 v).mapM Subpod.fromNode = .ok p.subpods ∧
        p.subpods.length = (toList1 v).length) ∧
    (∀ n : XmlVal, ∀ s : Subpod, Subpod.fromNode n = .ok s →
      ∃ v, dictGet n "img" = .ok v ∧
        (toList1 v).mapM Image.fromNode = .ok s.img ∧
        s.img.length = (toList1 v).length) ∧
    (∀ t : XmlVal, ∀ r : Result, Result.fromTree t = .ok r →
      (dictGet t "pod" = .error (.keyError "pod") → r.pods = none) ∧
      (dictGet t "assumptions" = .error (.keyError "assumptions") → r.assumptions = none) ∧
      (dictGet t "warnings" = .error (.keyError "warnings") → r.warnings = none)) := by
  refine ⟨?_, ?_, ?_⟩
  · intro n p h
    obtain ⟨e, title, scanner, idv, posRaw, pos, nsubRaw, nsub, subpodRaw, subpods,
      _, _, _, _, _, _, _, _, _, hsr, hsp, hp⟩ := fromNode_ok_inv h
    subst hp
    exact ⟨subpodRaw, hsr, hsp, mapM_ok_length _ _ _ hsp⟩
  · intro n s h
    obtain ⟨title, text, imgRaw, img, _, _, hir, him, hs⟩ := subpod_ok_inv h
    subst hs
    exact ⟨imgRaw, hir, him, mapM_ok_length _ _ _ him⟩
  · intro t r h
    obtain ⟨e, _, _, hp, ha, hw, _, _⟩ := fromTree_ok_inv h
    refine ⟨?_, ?_, ?_⟩
    · intro hk
      have hcp : computePods t = .error (.keyError "pod") := by
        unfold computePods
        rw [hk, exceptBindErr]
      rw [hcp] at hp
      exact (Except.ok.inj hp).symm
    · intro hk
      have hca : computeAssumptions t = .error (.keyError "assumptions") := by
        unfold computeAssumptions
        rw [hk, exceptBindErr]
      rw [hca] at ha
      exact (Except.ok.inj ha).symm
    · intro hk
      have hcw : computeWarnings t = .error (.keyError "warnings") := by
        unfold computeWarnings
        rw [hk, exceptBindErr]
      rw [hcw] at hw
      exact (Except.ok.inj hw).symm

/-- C3 counterexample: a pod node with every attribute but no subpod key
fails construction with a KeyError instead of exposing an empty subpod
sequence; and a document with no pod key yields `pods = None`, not an empty
sequence. -/
theorem claim_c3_counterexample :
    Pod.fromNode podNodeNoSubpod = .error (.keyError "subpod") ∧
    (Result.fromTree treeNoPods).map (fun r => r.pods) = .ok none :=
  ⟨rfl, rfl⟩

theorem claim_c3_witness :
    dictGet (samplePodNode "T" "x" none) "subpod" = .ok (sampleSubpodNode "x") ∧
    (toList1 (sampleSubpodNode "x")).mapM Subpod.fromNode = .ok [sampleSubpod "x"] ∧
    resultNoPods.pods = none := by
  obtain ⟨v, hv, hm, _⟩ := claim_c3_plural_children.1 (samplePodNode "T" "x" none)
    (samplePod "T" "x" none) rfl
  have hveq : v = sampleSubpodNode "x" :=
    Except.ok.inj (hv.symm.trans
      (rfl : dictGet (samplePodNode "T" "x" none) "subpod" = .ok (sampleSubpodNode "x")))
  subst hveq
  exact ⟨hv, hm, (claim_c3_plural_children.2.2 treeNoPods resultNoPods rfl).1 rfl⟩

/-- C4 (amended): for every successfully constructed Result, `info` holds
one element per present category — the whole pods list, then the whole
assumptions list, then the whole warnings list, in that order — so when all
three categories are present, iterating the Result yields exactly three
items (the category lists themselves), not the
`len(pods) + len(assumptions) + len(warnings)` flattened items of the
original claim (see the counterexample). -/
theorem claim_c4_info (t : XmlVal) (r : Result) (h : Result.fromTree t = .ok r) :
    r.info = optGroup InfoGroup.pods r.pods ++ optGroup InfoGroup.assumptions r.assumptions
      ++ optGroup InfoGroup.warnings r.warnings ∧
    (∀ ps asm ws, r.pods = some ps → r.assumptions = some asm → r.warnings = some ws →
      r.info = [InfoGroup.pods ps, InfoGroup.assumptions asm, InfoGroup.warnings ws] ∧
      r.info.length = 3) := by
  obtain ⟨e, _, _, _, _, _, _, hinfo⟩ := fromTree_ok_inv h
  refine ⟨hinfo, ?_⟩
  intro ps asm ws hp ha hw
  rw [hinfo, hp, ha, hw]
  exact ⟨rfl, rfl⟩

/-- C4 counterexample: a document with two pods, one assumptions child and
one warnings child constructs successfully; the categories hold 2+1+1 = 4
nodes, yet iterating `info` yields only 3 items — the three category lists
themselves, not the flattened nodes. -/
theorem claim_c4_counterexample :
    Result.fromTree sampleTree4 = .ok sampleResult4 ∧
    (sampleResult4.pods.getD []).length + (sampleResult4.assumptions.getD []).length
      + (sampleResult4.warnings.getD []).length = 4 ∧
    sampleResult4.info.length = 3 :=
  ⟨rfl, rfl, rfl⟩

theorem claim_c4_witness :
    sampleResult4.info =
      [InfoGroup.pods [samplePod "Input" "A" (some "true"), samplePod "Result" "B" none],
        InfoGroup.assumptions [{ assumption := .str "assumption" }],
        InfoGroup.warnings [{ node := .str "spellcheck" }]] ∧
    sampleResult4.info.length = 3 :=
  (claim_c4_info sampleTree4 sampleResult4 rfl).2 _ _ _ rfl rfl rfl

/-- C5: evaluating the code at the failing input.  A document with one pod
titled X whose first subpod plaintext is A constructs successfully, but
accessing `details` raises an AttributeError: the comprehension on line 88
reads `pod.details`, and no attribute of that name is ever assigned on Pod
(the instance dictionary holds node, error, title, scanner, id, position,
number_of_subpods, subpods and primary only).  The claimed
title-to-first-subpod-plaintext mapping is never produced. -/
theorem claim_c5_details_attribute_error :
    (Result.fromTree sampleTree5).map (fun r => Result.details r) =
      .ok (.error (.attributeError "Pod object has no attribute details")) ∧
    Pod.getattr (samplePod "X" "A" none) "details" =
      .error (.attributeError "Pod object has no attribute details") ∧
    (Pod.instanceDict (samplePod "X" "A" none)).find? (fun kv => kv.1 == "details") = none :=
  ⟨rfl, rfl, rfl⟩

/-- The substitution-and-truncation expression of lines 144-149, evaluated
on the spec's example strings (it is unreachable from `Assumption.text`,
whose attribute reads fail first): the substitutions fill in the template,
and the slice `text.take (index + 1)` ends at the period — it does not
include the trailing space. -/
theorem assumption_truncation_slice :
    strReplace (strReplace
        "Assuming ${desc1} is referring to ${word}. Use as a person instead. More text."
        "${desc1}" "Washington") "${word}" "a state" =
      "Assuming Washington is referring to a state. Use as a person instead. More text." ∧
    findSubIdx
      "Assuming Washington is referring to a state. Use as a person instead. More text.".toList
      ". ".toList = some 43 ∧
    ("Assuming Washington is referring to a state. Use as a person instead. More text.".toList.take
      (43 + 1)).asString = "Assuming Washington is referring to a state." :=
  ⟨rfl, rfl, rfl⟩

/-- C6 (amended): accessing `Assumption.text` always fails with an
attribute-not-found error on `template`: the constructor stores only the raw
node under the name `assumption` and never assigns `template`, `description`
or `word`, so the substitution-and-truncation logic below the first read is
unreachable (and, as written, its slice would end at the period, excluding
the trailing space). -/
theorem claim_c6_assumption_text (a : Assumption) :
    Assumption.text a =
      .error (.attributeError "Assumption object has no attribute template") := rfl

/-- C6 counterexample: at the spec's own example input — an assumption node
carrying the template, description Washington and word a state — accessing
`text` raises an AttributeError rather than returning the claimed string
"Assuming Washington is referring to a state. ". -/
theorem claim_c6_counterexample :
    Assumption.text (Assumption.fromNode assumptionNode6) =
      .error (.attributeError "Assumption object has no attribute template") ∧
    Assumption.text (Assumption.fromNode assumptionNode6) ≠
      .ok "Assuming Washington is referring to a state. " := by
  refine ⟨rfl, ?_⟩
  intro hcontra
  have h1 : Assumption.text (Assumption.fromNode assumptionNode6) =
      .error (.attributeError "Assumption object has no attribute template") := rfl
  rw [h1] at hcontra
  cases hcontra

/-- C7 (amended): the primary flag of every successfully constructed Pod is
the line-107 coercion, which maps the string "true" to true and the string
"false" to false as the claim says, but maps every other present value —
such as "TRUE" or "1" — to true as well, and an absent `@primary` key to
false; no value ever causes a coercion failure (see the counterexample).
The `@success` attribute is never coerced by this code at all. -/
theorem claim_c7_primary_coercion (n : XmlVal) (p : Pod) (h : Pod.fromNode n = .ok p) :
    p.primary = coercePrimary n ∧
    (coercePrimary n = true ↔
      ∃ v, dictLookup n "@primary" = some v ∧ XmlVal.eqStr v "false" = false) ∧
    (dictLookup n "@primary" = none → coercePrimary n = false) := by
  obtain ⟨e, title, scanner, idv, posRaw, pos, nsubRaw, nsub, subpodRaw, subpods,
    _, _, _, _, _, _, _, _, _, _, _, hp⟩ := fromNode_ok_inv h
  subst hp
  refine ⟨rfl, ?_, ?_⟩
  · unfold coercePrimary
    cases hv : dictLookup n "@primary" with
    | none => simp
    | some v => simp
  · intro hnone
    unfold coercePrimary
    rw [hnone]

/-- C7 counterexample: a pod node whose `@primary` value is the string TRUE
(not the literal true) constructs successfully — no coercion failure — and
its primary flag comes out true; likewise for the value 1. -/
theorem claim_c7_counterexample :
    Pod.fromNode (samplePodNode "Input" "x" (some "TRUE")) =
      .ok (samplePod "Input" "x" (some "TRUE")) ∧
    (samplePod "Input" "x" (some "TRUE")).primary = true ∧
    (Pod.fromNode (samplePodNode "Input" "x" (some "1"))).map (fun p => p.primary) =
      .ok true :=
  ⟨rfl, rfl, rfl⟩

theorem claim_c7_witness :
    (samplePod "Input" "x" (some "true")).primary =
      coercePrimary (samplePodNode "Input" "x" (some "true")) ∧
    coercePrimary (samplePodNode "Input" "x" (some "true")) = true ∧
    coercePrimary (samplePodNode "Input" "x" (some "false")) = false ∧
    coercePrimary (samplePodNode "Input" "x" none) = false :=
  ⟨(claim_c7_primary_coercion (samplePodNode "Input" "x" (some "true"))
      (samplePod "Input" "x" (some "true")) rfl).1, rfl, rfl, rfl⟩

/-- C8 (amended): for every successfully constructed Pod, `text` is the
list of each subpod's plaintext in subpod order — one entry per raw subpod
child — not the single first-subpod string; and it never fails: a pod with
zero subpods yields the empty list (see the counterexample). -/
theorem claim_c8_pod_text (n : XmlVal) (p : Pod) (v : XmlVal)
    (h : Pod.fromNode n = .ok p) (hv : dictGet n "subpod" = .ok v) :
    Pod.text p = p.subpods.map (fun s => s.text) ∧
    (Pod.text p).length = (toList1 v).length := by
  obtain ⟨e, title, scanner, idv, posRaw, pos, nsubRaw, nsub, subpodRaw, subpods,
    _, _, _, _, _, _, _, _, _, hsr, hsp, hp⟩ := fromNode_ok_inv h
  subst hp
  have hveq : subpodRaw = v := Except.ok.inj (hsr.symm.trans hv)
  subst hveq
  refine ⟨rfl, ?_⟩
  simp only [Pod.text, List.length_map]
  exact mapM_ok_length _ _ _ hsp

/-- C8 counterexample: a pod whose subpod key holds an empty list
constructs successfully with zero subpods, and accessing `text` then
succeeds with the empty list instead of failing; and on a one-subpod pod
`text` is the one-element list of plaintexts, not a bare string. -/
theorem claim_c8_counterexample :
    (Pod.fromNode podNodeEmptySubpods).map (fun p => (p.subpods.length, Pod.text p)) =
      .ok (0, []) ∧
    (Pod.fromNode (samplePodNode "T" "x" none)).map (fun p => Pod.text p) =
      .ok [XmlVal.str "x"] :=
  ⟨rfl, rfl⟩

theorem claim_c8_witness :
    Pod.text (samplePod "T" "x" none) =
      (samplePod "T" "x" none).subpods.map (fun s => s.text) ∧
    (Pod.text (samplePod "T" "x" none)).length = (toList1 (sampleSubpodNode "x")).length :=
  claim_c8_pod_text (samplePodNode "T" "x" none) (samplePod "T" "x" none)
    (sampleSubpodNode "x") rfl rfl

/-- The content-type and charset asserts reject a non-conforming response
whatever the body holds. -/
theorem client_query_reject (ct : String) (ch : Option String) (d : XmlVal)
    (h : ct ≠ "text/xml" ∨ ch ≠ some "utf-8") :
    Client.query ct ch d = .error .assertionError := by
  rcases h with h | h
  · simp [Client.query, h]
  · by_cases hct : ct = "text/xml"
    · subst hct
      simp [Client.query, h]
    · simp [Client.query, hct]

/-- C9: a response whose declared content type is not exactly text/xml, or
whose declared charset is not exactly utf-8, is rejected with an assertion
failure whose outcome does not depend on the body — no parsing is
attempted; a conforming response proceeds to parse, and yields the
constructed Result when parsing and construction succeed. -/
theorem claim_c9_client_validation :
    (∀ ct : String, ∀ ch : Option String, ∀ d : XmlVal,
      (ct ≠ "text/xml" ∨ ch ≠ some "utf-8") →
        Client.query ct ch d = .error .assertionError) ∧
    (∀ ct : String, ∀ ch : Option String, ∀ d d2 : XmlVal,
      (ct ≠ "text/xml" ∨ ch ≠ some "utf-8") →
        Client.query ct ch d = Client.query ct ch d2) ∧
    (∀ d : XmlVal, Client.query "text/xml" (some "utf-8") d = parseResponse d) ∧
    (∀ d : XmlVal, ∀ r : Result, parseResponse d = .ok r →
      Client.query "text/xml" (some "utf-8") d = .ok r) := by
  refine ⟨client_query_reject, ?_, ?_, ?_⟩
  · intro ct ch d d2 h
    rw [client_query_reject ct ch d h, client_query_reject ct ch d2 h]
  · intro d
    simp [Client.query]
  · intro d r h
    simp [Client.query, h]

theorem claim_c9_witness :
    Client.query "text/html" (some "utf-8") sampleDoc = .error .assertionError ∧
    Client.query "text/xml" (some "iso-8859-1") sampleDoc = .error .assertionError ∧
    Client.query "text/xml" none sampleDoc = .error .assertionError ∧
    Client.query "text/xml" (some "utf-8") sampleDoc = .ok sampleResult4 := by
  refine ⟨claim_c9_client_validation.1 _ _ _ (Or.inl (by decide)),
    claim_c9_client_validation.1 _ _ _ (Or.inr (by decide)),
    claim_c9_client_validation.1 _ _ _ (Or.inr (by decide)),
    claim_c9_client_validation.2.2.2 sampleDoc sampleResult4 rfl⟩

/-- C10: both the iteration and the length method of every Warning instance
fail unconditionally with a NameError: their bodies read the free name
`node`, which is bound neither in the method scope (only `self` is) nor in
the module globals, instead of the stored `self.node`. -/
theorem claim_c10_warning_methods (w : Warning) :
    Warning.iterMethod w = .error (.nameError "name node is not defined") ∧
    Warning.lenMethod w = .error (.nameError "name node is not defined") :=
  ⟨rfl, rfl⟩

end WolframAlphaV1
